import Mathlib

/-!
Shallow embedding of the todo-app backend (src/backend/index.js): a task
record stored in a document database, with six HTTP route handlers
(list, create, complete, notComplete, delete, update).

Modelling conventions:
* The document store is a list of tasks plus a counter supplying fresh
  identifiers; the store invariant `Store.WF` says every stored id is
  below the counter and ids are pairwise distinct (MongoDB ObjectIds are
  unique and never reused).
* Timestamps (`Date` values) are integers (milliseconds since epoch).
* A JSON request body field that may be absent is an `Option`; a `Date`
  field sent by the client may additionally be present but uncastable
  (e.g. the empty string), modelled by `DateField.invalid`.
* Mongoose `required: true` rejects a missing field, and for `String`
  fields also the empty string.
* `findByIdAndUpdate` strips fields whose value is `undefined` from the
  update (Mongoose default), applies the rest to the matched document,
  and with `new: true` returns the post-update document.
* Each handler returns `Option Resp × Store`: `some r` is the HTTP
  response sent, `none` means the handler threw without responding.  The
  only such path is the create handler's catch block, which reads the
  undefined variable `err` (the catch parameter is named `error`), so the
  `res.status(500)` line below it never runs.
-/

namespace TodoApp

/-- A task document, per `taskSchema` in src/backend/index.js. -/
structure Task where
  id : Nat
  title : String
  description : String
  dueDate : Int
  dateCreated : Int
  completed : Bool
deriving Repr, DecidableEq

/-- The persistent store: documents in natural (insertion) order, and the
next fresh identifier. -/
structure Store where
  tasks : List Task
  nextId : Nat
deriving Repr, DecidableEq

/-- Store invariant: ids are below the fresh-id counter (so ids are never
reused) and pairwise distinct. -/
def Store.WF (s : Store) : Prop :=
  (∀ t ∈ s.tasks, t.id < s.nextId) ∧ (s.tasks.map Task.id).Nodup

instance (s : Store) : Decidable s.WF := by
  unfold Store.WF; infer_instance

/-- A `Date`-typed JSON body field: absent, present but uncastable
(e.g. the empty string), or a castable timestamp. -/
inductive DateField where
  | missing
  | invalid
  | value (ms : Int)
deriving Repr, DecidableEq

/-- The JSON body of a create request.  The handler destructures only
`title`, `description` and `dueDate`; the remaining fields model any
extra data a client might send, which the handler never reads. -/
structure CreateBody where
  title : Option String
  description : Option String
  dueDate : DateField
  completed : Option Bool := none
  dateCreated : Option Int := none
  id : Option Nat := none
deriving Repr, DecidableEq

/-- A JSON response body: a bare message, a task with a message, or an
array of tasks. -/
inductive RespBody where
  | msg (message : String)
  | taskMsg (task : Task) (message : String)
  | taskList (tasks : List Task)
deriving Repr, DecidableEq

/-- An HTTP response: status code and JSON body. -/
structure Resp where
  status : Nat
  body : RespBody
deriving Repr, DecidableEq

/-- Look up a document by id (`Model.findById` lookup step). -/
def findTask (s : Store) (id : Nat) : Option Task :=
  s.tasks.find? (fun t => t.id = id)

/-- The update document passed to `findByIdAndUpdate`; a `none` field is
`undefined` in JavaScript and is stripped from the update by Mongoose. -/
structure UpdateFields where
  title : Option String := none
  description : Option String := none
  dueDate : Option Int := none
  completed : Option Bool := none
deriving Repr, DecidableEq

/-- Apply an update document to a task: present fields replace the
task's, stripped (`undefined`) fields leave it alone. -/
def applyFields (u : UpdateFields) (t : Task) : Task :=
  { t with
    title := u.title.getD t.title
    description := u.description.getD t.description
    dueDate := u.dueDate.getD t.dueDate
    completed := u.completed.getD t.completed }

/-- `Model.findByIdAndUpdate(id, u, {new: true})`: find the document with
the given id, apply the update, return the post-update document and the
new store; `none` and the unchanged store when no document matches. -/
def findByIdAndUpdate (s : Store) (id : Nat) (u : UpdateFields) :
    Option Task × Store :=
  match s.tasks.find? (fun t => t.id = id) with
  | none => (none, s)
  | some t =>
    let t2 := applyFields u t
    (some t2,
     { s with tasks := s.tasks.map (fun x => if x.id = id then t2 else x) })

/-- `Model.findByIdAndDelete(id)`: remove the document with the given id,
returning its prior state; `none` and the unchanged store when no
document matches. -/
def findByIdAndDelete (s : Store) (id : Nat) : Option Task × Store :=
  match s.tasks.find? (fun t => t.id = id) with
  | none => (none, s)
  | some t => (some t, { s with tasks := s.tasks.filter (fun x => x.id ≠ id) })

/-- MongoDB `.sort({key: 1})` on an indexed field: stable ascending sort
by the key. -/
def sortTasks (key : Task → Int) (l : List Task) : List Task :=
  List.insertionSort (fun a b => key a ≤ key b) l

/-- A JavaScript array is an object and hence truthy, even when empty, so
`if (!tasks)` is false for every array the query returns. -/
def arrayTruthy (_ : List Task) : Bool := true

/-- GET /api/tasks handler: choose a sort option from the `sortBy` query
parameter, run the query, and answer 200 with the array (the `!tasks`
404 branch is kept as in the source). -/
def getTasks (s : Store) (sortBy : Option String) : Resp :=
  let tasks :=
    if sortBy = some "dueDate" then sortTasks (fun t => t.dueDate) s.tasks
    else if sortBy = some "dateCreated" then
      sortTasks (fun t => t.dateCreated) s.tasks
    else s.tasks
  if arrayTruthy tasks = false then ⟨404, .msg "Tasks not found"⟩
  else ⟨200, .taskList tasks⟩

/-- Store-level validation run by `save()`: the three schema-required
input fields must be present, the strings non-empty, the date castable. -/
def createValid (b : CreateBody) : Bool :=
  match b.title, b.description, b.dueDate with
  | some title, some description, .value _ => title ≠ "" && description ≠ ""
  | _, _, _ => false

/-- POST /api/tasks/todo handler.  Destructures only `title`,
`description`, `dueDate` from the body; `save()` assigns a fresh id and
the schema defaults `dateCreated := now` and `completed := false`.  When
validation rejects, the catch block reads the undefined variable `err`
and itself throws, so no response is sent and nothing is stored. -/
def postTodo (s : Store) (now : Int) (b : CreateBody) : Option Resp × Store :=
  match b.title, b.description, b.dueDate with
  | some title, some description, .value dueDate =>
    if title = "" || description = "" then (none, s)
    else
      let newTask : Task :=
        { id := s.nextId, title := title, description := description,
          dueDate := dueDate, dateCreated := now, completed := false }
      (some ⟨200, .taskMsg newTask "Task created successfully"⟩,
       { tasks := s.tasks ++ [newTask], nextId := s.nextId + 1 })
  | _, _, _ => (none, s)

/-- PATCH /api/tasks/complete/:id handler: `findByIdAndUpdate` with the
body's `completed` field (stripped when absent); 404 when no document
matches, else 200 with the post-update task. -/
def patchComplete (s : Store) (id : Nat) (completed : Option Bool) :
    Option Resp × Store :=
  let r := findByIdAndUpdate s id { completed := completed }
  match r.1 with
  | none => (some ⟨404, .msg "Task not found"⟩, r.2)
  | some t => (some ⟨200, .taskMsg t "Task set to complete."⟩, r.2)

/-- PATCH /api/tasks/notComplete/:id handler: identical to
`patchComplete` except for the response message. -/
def patchNotComplete (s : Store) (id : Nat) (completed : Option Bool) :
    Option Resp × Store :=
  let r := findByIdAndUpdate s id { completed := completed }
  match r.1 with
  | none => (some ⟨404, .msg "Task not found"⟩, r.2)
  | some t => (some ⟨200, .taskMsg t "Task set to not complete."⟩, r.2)

/-- DELETE /api/tasks/delete/:id handler: `findByIdAndDelete`; 404 when
no document matches, else 200 with the deleted task's prior state. -/
def deleteTask (s : Store) (id : Nat) : Option Resp × Store :=
  let r := findByIdAndDelete s id
  match r.1 with
  | none => (some ⟨404, .msg "Task not found!"⟩, r.2)
  | some t => (some ⟨200, .taskMsg t "Task deleted successfully!"⟩, r.2)

/-- The JSON body of an update request: the three editable fields, each
possibly absent (absent fields are stripped from the update). -/
structure UpdateBody where
  title : Option String
  description : Option String
  dueDate : Option Int
deriving Repr, DecidableEq

/-- PUT /api/tasks/update/:id handler: `findByIdAndUpdate` with the
body's `title`, `description`, `dueDate`; 404 when no document matches,
else 200 with the post-update task. -/
def putUpdate (s : Store) (id : Nat) (b : UpdateBody) : Option Resp × Store :=
  let r := findByIdAndUpdate s id
    { title := b.title, description := b.description, dueDate := b.dueDate }
  match r.1 with
  | none => (some ⟨404, .msg "Task not found!"⟩, r.2)
  | some t => (some ⟨200, .taskMsg t "Task updated successfully!"⟩, r.2)

/-- Demo request bodies used to instantiate theorems at concrete inputs. -/
def bodyA : CreateBody := { title := some "A", description := some "B", dueDate := .value 30 }

def bodyB : CreateBody := { title := some "C", description := some "D", dueDate := .value 20 }

def bodyC : CreateBody := { title := some "E", description := some "F", dueDate := .value 10 }

/-- A store obtained by three successive creates from the empty store at
times 1, 2, 3 (so natural order is creation order). -/
def demoStore3 : Store :=
  (postTodo (postTodo (postTodo ⟨[], 0⟩ 1 bodyA).2 2 bodyB).2 3 bodyC).2

/-- A concrete stored task used to instantiate theorems. -/
def taskA : Task := ⟨0, "A", "B", 30, 5, false⟩

/-- A one-task store holding `taskA`. -/
def storeA : Store := ⟨[taskA], 1⟩

-- ------------------------- helper lemmas -------------------------

theorem find?_map_replace (l : List Task) (id : Nat) (t t2 : Task)
    (h : l.find? (fun x => x.id = id) = some t) (h2 : t2.id = id) :
    (l.map (fun x => if x.id = id then t2 else x)).find? (fun x => x.id = id)
      = some t2 := by
  induction l with
  | nil => simp at h
  | cons a l ih =>
    by_cases ha : a.id = id
    · simp [List.find?_cons, ha, h2]
    · rw [List.find?_cons_of_neg _ (by simpa using ha)] at h
      simp only [List.map_cons, if_neg ha]
      rw [List.find?_cons_of_neg _ (by simpa using ha)]
      exact ih h

theorem map_replace_self (l : List Task) (id : Nat) (t : Task)
    (hn : (l.map Task.id).Nodup)
    (h : l.find? (fun x => x.id = id) = some t) :
    l.map (fun x => if x.id = id then t else x) = l := by
  induction l with
  | nil => rfl
  | cons a l ih =>
    simp only [List.map_cons, List.nodup_cons] at hn
    by_cases ha : a.id = id
    · rw [List.find?_cons_of_pos _ (by simpa using ha)] at h
      injection h with h
      subst h
      simp only [List.map_cons, if_pos ha]
      congr 1
      have hcongr : ∀ x ∈ l, (if x.id = id then a else x) = (fun y => y) x := by
        intro x hx
        have hne : x.id ≠ id := by
          intro hxid
          have hmem : x.id ∈ List.map Task.id l := List.mem_map_of_mem Task.id hx
          rw [hxid, ← ha] at hmem
          exact hn.1 hmem
        simp [hne]
      rw [List.map_congr_left hcongr, List.map_id']
    · rw [List.find?_cons_of_neg _ (by simpa using ha)] at h
      simp only [List.map_cons, if_neg ha]
      rw [ih hn.2 h]

theorem sortTasks_sorted (key : Task → Int) (l : List Task) :
    (sortTasks key l).Pairwise (fun a b => key a ≤ key b) := by
  haveI : IsTotal Task (fun a b => key a ≤ key b) := ⟨fun a b => Int.le_total _ _⟩
  haveI : IsTrans Task (fun a b => key a ≤ key b) :=
    ⟨fun _ _ _ hab hbc => le_trans hab hbc⟩
  exact List.sorted_insertionSort _ l

theorem sortTasks_perm (key : Task → Int) (l : List Task) :
    List.Perm (sortTasks key l) l :=
  List.perm_insertionSort _ l

theorem sortTasks_eq_of_sorted (key : Task → Int) (l : List Task)
    (h : l.Pairwise (fun a b => key a ≤ key b)) : sortTasks key l = l :=
  List.Sorted.insertionSort_eq h

theorem sortTasks_nil (key : Task → Int) : sortTasks key [] = [] := rfl

theorem find?_append_none (l1 l2 : List Task) (p : Task → Bool)
    (h1 : l1.find? p = none) (h2 : l2.find? p = none) :
    (l1 ++ l2).find? p = none := by
  rw [List.find?_eq_none] at h1 h2 ⊢
  intro a ha
  rcases List.mem_append.mp ha with h | h
  · exact h1 a h
  · exact h2 a h

-- ------------------------- claim theorems -------------------------

/-- Claim C8: the list operation never fails on an empty result: the
response status is always 200 (the 404 branch guarded by `!tasks` is
never taken, arrays being truthy), and on an empty store the body is the
empty sequence. -/
theorem list_never_404 (s : Store) (sortBy : Option String) :
    (getTasks s sortBy).status = 200 ∧
    (s.tasks = [] → getTasks s sortBy = ⟨200, .taskList []⟩) := by
  constructor
  · unfold getTasks arrayTruthy
    simp
  · intro h
    simp [getTasks, arrayTruthy, h, sortTasks_nil, ite_self]

/-- Witness for C8 at the empty store. -/
theorem list_never_404_witness :
    getTasks ⟨[], 0⟩ (some "dueDate") = ⟨200, .taskList []⟩ :=
  (list_never_404 ⟨[], 0⟩ (some "dueDate")).2 rfl

/-- Claim C1 (code behavior at the failing input): for every create
request with a required field absent or empty, nothing is stored (the
store is unchanged) but NO response at all is sent (`none`): the catch
block reads the undefined variable `err` and throws before
`res.status(500)` runs, so the claimed 500 with a message never reaches
the caller. -/
theorem create_invalid_no_response (s : Store) (now : Int) (b : CreateBody)
    (h : b.title = none ∨ b.title = some "" ∨ b.description = none ∨
      b.description = some "" ∨ b.dueDate = .missing ∨ b.dueDate = .invalid) :
    postTodo s now b = (none, s) := by
  rcases hb : b.title with _ | title <;>
    rcases hd : b.description with _ | d <;>
      rcases hdd : b.dueDate with _ | _ | ms <;>
        simp_all [postTodo]

/-- Witness for C1: the empty create request. -/
theorem create_invalid_no_response_witness :
    postTodo ⟨[], 0⟩ 0 { title := none, description := none, dueDate := .missing }
      = (none, ⟨[], 0⟩) :=
  create_invalid_no_response ⟨[], 0⟩ 0 _ (Or.inl rfl)

/-- Claim C9: the create operation reads only `title`, `description` and
`dueDate` from the body — two requests agreeing on those three fields
produce identical results — and every successful response carries a task
whose `completed`, `dateCreated` and `id` are the server-side defaults,
regardless of any client-supplied values for them. -/
theorem create_ignores_extra_fields (s : Store) (now : Int) (b1 b2 : CreateBody)
    (ht : b1.title = b2.title) (hd : b1.description = b2.description)
    (hdue : b1.dueDate = b2.dueDate) :
    postTodo s now b1 = postTodo s now b2 ∧
    (∀ r st, postTodo s now b1 = (some r, st) →
      ∃ t : Task, r = ⟨200, .taskMsg t "Task created successfully"⟩ ∧
        t.completed = false ∧ t.dateCreated = now ∧ t.id = s.nextId) := by
  constructor
  · unfold postTodo
    rw [ht, hd, hdue]
  · intro r st hr
    unfold postTodo at hr
    split at hr
    · split at hr
      · rw [Prod.mk.injEq] at hr
        exact absurd hr.1 (by simp)
      · rw [Prod.mk.injEq] at hr
        obtain ⟨h1, h2⟩ := hr
        injection h1 with h1
        subst h1
        exact ⟨_, rfl, rfl, rfl, rfl⟩
    · rw [Prod.mk.injEq] at hr
      exact absurd hr.1 (by simp)

/-- Witness for C9: two create bodies agreeing on the three read fields
but differing in client-supplied `completed`, `dateCreated`, `id`. -/
theorem create_ignores_extra_fields_witness :
    postTodo ⟨[], 0⟩ 7 bodyA
      = postTodo ⟨[], 0⟩ 7
          { title := some "A", description := some "B", dueDate := .value 30,
            completed := some true, dateCreated := some 99, id := some 42 } :=
  (create_ignores_extra_fields ⟨[], 0⟩ 7 bodyA
    { title := some "A", description := some "B", dueDate := .value 30,
      completed := some true, dateCreated := some 99, id := some 42 }
    rfl rfl rfl).1

/-- Claim C4: a successful create returns a 200 with the stored task: a
fresh identifier distinct from every stored task's (never reused, by the
store invariant), `dateCreated` equal to (hence at most) the creation
time, and `completed` defaulted to `false`. -/
theorem create_valid_defaults (s : Store) (now : Int) (b : CreateBody)
    (title d : String) (due : Int) (hWF : s.WF)
    (ht : b.title = some title) (hd : b.description = some d)
    (hdue : b.dueDate = .value due) (hte : title ≠ "") (hde : d ≠ "") :
    ∃ t : Task,
      postTodo s now b =
        (some ⟨200, .taskMsg t "Task created successfully"⟩,
         ⟨s.tasks ++ [t], s.nextId + 1⟩) ∧
      t.completed = false ∧ t.dateCreated = now ∧ t.dateCreated ≤ now ∧
      (∀ u ∈ s.tasks, u.id ≠ t.id) := by
  refine ⟨⟨s.nextId, title, d, due, now, false⟩, ?_, rfl, rfl, le_refl _, ?_⟩
  · unfold postTodo
    rw [ht, hd, hdue]
    simp [hte, hde]
  · intro u hu
    exact Nat.ne_of_lt (hWF.1 u hu)

/-- Witness for C4: a concrete valid create on a well-formed store. -/
theorem create_valid_defaults_witness :
    ∃ t : Task,
      postTodo ⟨[], 0⟩ 5 bodyA =
        (some ⟨200, .taskMsg t "Task created successfully"⟩,
         ⟨[] ++ [t], 0 + 1⟩) ∧
      t.completed = false ∧ t.dateCreated = 5 ∧ t.dateCreated ≤ 5 ∧
      (∀ u ∈ ([] : List Task), u.id ≠ t.id) :=
  create_valid_defaults ⟨[], 0⟩ 5 bodyA "A" "B" 30 (by decide) rfl rfl rfl
    (by decide) (by decide)

/-- Claim C2: updating an existing task with all three editable fields
present replaces exactly `title`, `description` and `dueDate` and leaves
`id`, `dateCreated` and `completed` unchanged; the 200 response carries
the post-update task, which is also what a lookup in the new store
returns. -/
theorem update_replaces_three_fields (s : Store) (id : Nat) (t : Task)
    (b : UpdateBody) (title d : String) (due : Int)
    (hfind : findTask s id = some t)
    (ht : b.title = some title) (hd : b.description = some d)
    (hdue : b.dueDate = some due) :
    ∃ t2 : Task,
      putUpdate s id b = (some ⟨200, .taskMsg t2 "Task updated successfully!"⟩,
        ⟨s.tasks.map (fun x => if x.id = id then t2 else x), s.nextId⟩) ∧
      t2.title = title ∧ t2.description = d ∧ t2.dueDate = due ∧
      t2.id = t.id ∧ t2.dateCreated = t.dateCreated ∧
      t2.completed = t.completed ∧
      findTask (putUpdate s id b).2 id = some t2 := by
  have hfind' : s.tasks.find? (fun x => x.id = id) = some t := hfind
  have hid : t.id = id := by
    have hp := List.find?_some hfind'
    simpa using hp
  refine ⟨applyFields ⟨b.title, b.description, b.dueDate, none⟩ t,
    ?_, ?_, ?_, ?_, rfl, rfl, rfl, ?_⟩
  · simp only [putUpdate, findByIdAndUpdate, hfind']
  · simp [applyFields, ht]
  · simp [applyFields, hd]
  · simp [applyFields, hdue]
  · simp only [putUpdate, findByIdAndUpdate, hfind', findTask]
    exact find?_map_replace s.tasks id t _ hfind' (by simp [applyFields, hid])

/-- Witness for C2: update the one stored task with fresh field values. -/
theorem update_replaces_three_fields_witness :
    ∃ t2 : Task,
      putUpdate storeA 0 ⟨some "X", some "Y", some 40⟩
        = (some ⟨200, .taskMsg t2 "Task updated successfully!"⟩,
          ⟨storeA.tasks.map (fun x => if x.id = 0 then t2 else x),
           storeA.nextId⟩) ∧
      t2.title = "X" ∧ t2.description = "Y" ∧ t2.dueDate = 40 ∧
      t2.id = taskA.id ∧ t2.dateCreated = taskA.dateCreated ∧
      t2.completed = taskA.completed ∧
      findTask (putUpdate storeA 0 ⟨some "X", some "Y", some 40⟩).2 0
        = some t2 :=
  update_replaces_three_fields storeA 0 taskA ⟨some "X", some "Y", some 40⟩
    "X" "Y" 40 rfl rfl rfl rfl

/-- Claim C6: deleting an existing task answers 200 with the task's
prior state as confirmation, and the new store holds exactly the tasks
whose id differs. -/
theorem delete_existing (s : Store) (id : Nat) (t : Task)
    (hfind : findTask s id = some t) :
    deleteTask s id = (some ⟨200, .taskMsg t "Task deleted successfully!"⟩,
      ⟨s.tasks.filter (fun x => x.id ≠ id), s.nextId⟩) ∧
    t ∈ s.tasks ∧
    (∀ u : Task, u ∈ (deleteTask s id).2.tasks ↔ u ∈ s.tasks ∧ u.id ≠ id) := by
  have hfind' : s.tasks.find? (fun x => x.id = id) = some t := hfind
  refine ⟨?_, List.mem_of_find?_eq_some hfind', ?_⟩
  · simp only [deleteTask, findByIdAndDelete, hfind']
  · intro u
    simp only [deleteTask, findByIdAndDelete, hfind']
    simp [List.mem_filter]

/-- Witness for C6: delete the one stored task. -/
theorem delete_existing_witness :
    deleteTask storeA 0 = (some ⟨200, .taskMsg taskA "Task deleted successfully!"⟩,
      ⟨storeA.tasks.filter (fun x => x.id ≠ 0), storeA.nextId⟩) ∧
    taskA ∈ storeA.tasks ∧
    (∀ u : Task, u ∈ (deleteTask storeA 0).2.tasks ↔
      u ∈ storeA.tasks ∧ u.id ≠ 0) :=
  delete_existing storeA 0 taskA rfl

/-- Claim C5: after a delete no task with that id remains; an id below
the fresh-id counter is never reassigned by a create (ids are not
reused); and every set-completion, update or delete with an id that no
stored task carries answers 404 and leaves the store unchanged. -/
theorem missing_id_ops_404 (s : Store) (id : Nat) (c : Option Bool)
    (b : UpdateBody) :
    findTask (deleteTask s id).2 id = none ∧
    (id < s.nextId → findTask s id = none → ∀ now bc,
      findTask (postTodo s now bc).2 id = none) ∧
    (findTask s id = none →
      patchComplete s id c = (some ⟨404, .msg "Task not found"⟩, s) ∧
      patchNotComplete s id c = (some ⟨404, .msg "Task not found"⟩, s) ∧
      putUpdate s id b = (some ⟨404, .msg "Task not found!"⟩, s) ∧
      deleteTask s id = (some ⟨404, .msg "Task not found!"⟩, s)) := by
  refine ⟨?_, ?_, ?_⟩
  · cases hc : s.tasks.find? (fun x => x.id = id) with
    | none =>
      simp only [deleteTask, findByIdAndDelete, hc, findTask]
    | some t =>
      simp only [deleteTask, findByIdAndDelete, hc, findTask]
      rw [List.find?_eq_none]
      intro u hu
      have hne := (List.mem_filter.mp hu).2
      simp at hne ⊢
      exact hne
  · intro hlt hnone now bc
    have hnone' : s.tasks.find? (fun x => x.id = id) = none := hnone
    rcases hb : bc.title with _ | title <;>
      rcases hd : bc.description with _ | d <;>
        rcases hdd : bc.dueDate with _ | _ | ms <;>
          simp only [postTodo, hb, hd, hdd]
    all_goals try exact hnone
    split
    · exact hnone
    · show List.find? _ (s.tasks ++ [_]) = none
      apply find?_append_none _ _ _ hnone'
      rw [List.find?_eq_none]
      intro a ha
      simp only [List.mem_singleton] at ha
      subst ha
      simp
      exact Nat.ne_of_gt hlt
  · intro hnone
    have hnone' : s.tasks.find? (fun x => x.id = id) = none := hnone
    refine ⟨?_, ?_, ?_, ?_⟩ <;>
      simp only [patchComplete, patchNotComplete, putUpdate, deleteTask,
        findByIdAndUpdate, findByIdAndDelete, hnone']

/-- Witness for C5: operations with id 2 on a store whose counter is 3
and whose tasks were all deleted. -/
theorem missing_id_ops_404_witness :
    findTask (postTodo ⟨[], 3⟩ 9 bodyB).2 2 = none ∧
    patchComplete storeA 5 (some true)
      = (some ⟨404, .msg "Task not found"⟩, storeA) ∧
    deleteTask storeA 5 = (some ⟨404, .msg "Task not found!"⟩, storeA) :=
  ⟨(missing_id_ops_404 ⟨[], 3⟩ 2 none ⟨none, none, none⟩).2.1
      (by decide) rfl 9 bodyB,
   ((missing_id_ops_404 storeA 5 (some true) ⟨none, none, none⟩).2.2 rfl).1,
   ((missing_id_ops_404 storeA 5 (some true) ⟨none, none, none⟩).2.2
      rfl).2.2.2⟩

/-- Claim C7: the complete and notComplete handlers are functionally
identical: same resulting store, same status, the same 404 failure on a
missing id, and on an existing id with a `completed` value in the body
both set the task's `completed` field to that value. -/
theorem complete_notComplete_equiv (s : Store) (id : Nat) (c : Option Bool) :
    (patchComplete s id c).2 = (patchNotComplete s id c).2 ∧
    ((patchComplete s id c).1.map Resp.status
      = (patchNotComplete s id c).1.map Resp.status) ∧
    (findTask s id = none →
      patchComplete s id c = (some ⟨404, .msg "Task not found"⟩, s) ∧
      patchNotComplete s id c = (some ⟨404, .msg "Task not found"⟩, s)) ∧
    (∀ bv t, c = some bv → findTask s id = some t →
      ∃ t2 : Task,
        patchComplete s id c
          = (some ⟨200, .taskMsg t2 "Task set to complete."⟩,
             (patchComplete s id c).2) ∧
        patchNotComplete s id c
          = (some ⟨200, .taskMsg t2 "Task set to not complete."⟩,
             (patchComplete s id c).2) ∧
        t2.completed = bv ∧
        findTask (patchComplete s id c).2 id = some t2) := by
  refine ⟨?_, ?_, ?_, ?_⟩
  · cases hc : s.tasks.find? (fun x => x.id = id) <;>
      simp only [patchComplete, patchNotComplete, findByIdAndUpdate, hc]
  · cases hc : s.tasks.find? (fun x => x.id = id) <;>
      simp only [patchComplete, patchNotComplete, findByIdAndUpdate, hc,
        Option.map_some']
  · intro hnone
    have hnone' : s.tasks.find? (fun x => x.id = id) = none := hnone
    constructor <;>
      simp only [patchComplete, patchNotComplete, findByIdAndUpdate, hnone']
  · intro bv t hc hfind
    have hfind' : s.tasks.find? (fun x => x.id = id) = some t := hfind
    have hid : t.id = id := by
      have hp := List.find?_some hfind'
      simpa using hp
    subst hc
    refine ⟨applyFields ⟨none, none, none, some bv⟩ t, ?_, ?_, rfl, ?_⟩
    · simp only [patchComplete, findByIdAndUpdate, hfind']
    · simp only [patchComplete, patchNotComplete, findByIdAndUpdate, hfind']
    · simp only [patchComplete, findByIdAndUpdate, hfind', findTask]
      exact find?_map_replace s.tasks id t _ hfind' (by simp [applyFields, hid])

/-- Witness for C7: both patch endpoints on the one-task store with a
concrete body. -/
theorem complete_notComplete_equiv_witness :
    ∃ t2 : Task,
      patchComplete storeA 0 (some true)
        = (some ⟨200, .taskMsg t2 "Task set to complete."⟩,
           (patchComplete storeA 0 (some true)).2) ∧
      patchNotComplete storeA 0 (some true)
        = (some ⟨200, .taskMsg t2 "Task set to not complete."⟩,
           (patchComplete storeA 0 (some true)).2) ∧
      t2.completed = true ∧
      findTask (patchComplete storeA 0 (some true)).2 0 = some t2 :=
  (complete_notComplete_equiv storeA 0 (some true)).2.2.2 true taskA rfl rfl

/-- Claim C10: a completion request whose body lacks `completed` is not
an error for an existing task: the stripped update leaves the task and
the store entirely unchanged and the 200 response carries the unchanged
task, on both patch endpoints. -/
theorem patch_missing_completed_noop (s : Store) (id : Nat) (t : Task)
    (hn : (s.tasks.map Task.id).Nodup) (hfind : findTask s id = some t) :
    patchComplete s id none
      = (some ⟨200, .taskMsg t "Task set to complete."⟩, s) ∧
    patchNotComplete s id none
      = (some ⟨200, .taskMsg t "Task set to not complete."⟩, s) := by
  have hfind' : s.tasks.find? (fun x => x.id = id) = some t := hfind
  have happ : applyFields ⟨none, none, none, none⟩ t = t := rfl
  have hmap : s.tasks.map (fun x => if x.id = id then t else x) = s.tasks :=
    map_replace_self s.tasks id t hn hfind'
  constructor <;>
    simp only [patchComplete, patchNotComplete, findByIdAndUpdate, hfind',
      happ, hmap]

/-- Witness for C10: a body without `completed` on the one-task store. -/
theorem patch_missing_completed_noop_witness :
    patchComplete storeA 0 none
      = (some ⟨200, .taskMsg taskA "Task set to complete."⟩, storeA) ∧
    patchNotComplete storeA 0 none
      = (some ⟨200, .taskMsg taskA "Task set to not complete."⟩, storeA) :=
  patch_missing_completed_noop storeA 0 taskA (by decide) rfl

/-- Claim C3: listing with sortBy dueDate (resp. dateCreated) answers
200 with a permutation of all stored tasks that is non-decreasing in
dueDate (resp. dateCreated); and when the store's natural order is
already non-decreasing in dateCreated — as for tasks created in
sequence, since creates append and stamp the current time — the tasks
come back in exactly that creation order. -/
theorem list_sorted_by_key (s : Store) :
    (∃ l, getTasks s (some "dueDate") = ⟨200, .taskList l⟩ ∧
      l.Pairwise (fun a b => a.dueDate ≤ b.dueDate) ∧ List.Perm l s.tasks) ∧
    (∃ l, getTasks s (some "dateCreated") = ⟨200, .taskList l⟩ ∧
      l.Pairwise (fun a b => a.dateCreated ≤ b.dateCreated) ∧
      List.Perm l s.tasks) ∧
    (s.tasks.Pairwise (fun a b => a.dateCreated ≤ b.dateCreated) →
      getTasks s (some "dateCreated") = ⟨200, .taskList s.tasks⟩) := by
  refine ⟨⟨sortTasks (fun t => t.dueDate) s.tasks, ?_,
      sortTasks_sorted _ _, sortTasks_perm _ _⟩,
    ⟨sortTasks (fun t => t.dateCreated) s.tasks, ?_,
      sortTasks_sorted _ _, sortTasks_perm _ _⟩, ?_⟩
  · simp [getTasks, arrayTruthy]
  · simp [getTasks, arrayTruthy]
  · intro h
    simp [getTasks, arrayTruthy, sortTasks_eq_of_sorted _ _ h]

/-- Witness for C3: the store built by three creates at increasing
times lists in creation order under sortBy dateCreated. -/
theorem list_sorted_by_key_witness :
    getTasks demoStore3 (some "dateCreated")
      = ⟨200, .taskList demoStore3.tasks⟩ :=
  (list_sorted_by_key demoStore3).2.2 (by decide)

end TodoApp
